import Mathlib

/-!
Verification of the Superset guest-token relay (`main.py`).

The development shallowly embeds the program: JSON values are an inductive
type, the upstream HTTP service is an oracle function from requests to
responses, and each Python function that talks to the network becomes a Lean
function that returns an `Except`-style result together with the list of
upstream requests it issued.  Python exceptions (`HTTPException`) become the
`Except.error` branch.  All definitions are computable, so concrete runs can
be evaluated inside proofs.
-/

/-- JSON values, as produced by `json.loads` / `response.json()`.
Numbers are modelled as integers only; no claim involves fractional JSON
numbers. -/
inductive Json where
  | null : Json
  | bool (b : Bool) : Json
  | num (n : Int) : Json
  | str (s : String) : Json
  | arr (items : List Json) : Json
  | obj (entries : List (String × Json)) : Json
deriving Repr, Inhabited

/-- Python `dict.get(key)`: the value under `key`, or `None` when absent.
The source only ever calls `.get` on JSON objects; on non-objects CPython
would raise `AttributeError`, a case no claim below touches, and we return
`none` there. -/
def Json.get (j : Json) (key : String) : Option Json :=
  match j with
  | .obj entries => (entries.find? (fun p => p.1 == key)).map (fun p => p.2)
  | _ => none

/-- Python truthiness of a JSON value (`bool(x)`). -/
def Json.truthy : Json → Bool
  | .null => false
  | .bool b => b
  | .num n => n != 0
  | .str s => s != ""
  | .arr items => !items.isEmpty
  | .obj entries => !entries.isEmpty

/-- Python truthiness of `dict.get`: `None` is falsy. -/
def optTruthy : Option Json → Bool
  | none => false
  | some j => j.truthy

/-- An upstream HTTP response: status code, raw text body (`r.text`) and the
parsed JSON body (`r.json()`). -/
structure HttpResp where
  status_code : Nat
  text : String
  body : Json

/-- An upstream HTTP request as issued through the `requests` session.
Headers carry only the bearer/CSRF tokens and affect no claim, so they are
not recorded. -/
structure Req where
  method : String
  url : String
  payload : Option Json

/-- The exception raised by the endpoints (`fastapi.HTTPException`). -/
structure HTTPExc where
  status_code : Nat
  detail : String
deriving DecidableEq, Repr

/-- Which of the four pipeline steps issued an upstream request. -/
inductive Step where
  | login
  | csrf
  | resolve
  | issue
deriving DecidableEq, Repr

/-- One logged upstream call: the step that made it and the request. -/
abbrev Entry := Step × Req

/-- Result of one stateful step: either a value or a raised `HTTPException`,
together with the upstream requests issued (in order). -/
abbrev StepResult (α : Type) := Except HTTPExc α × List Entry

/-- Sequencing of steps: on failure the pipeline aborts, on success the logs
concatenate (this is Python exception propagation across sequential calls). -/
def andThen {α β : Type} (x : StepResult α) (f : α → StepResult β) : StepResult β :=
  match x with
  | (.error e, log) => (.error e, log)
  | (.ok a, log) => ((f a).1, log ++ (f a).2)

/-- Whether an `Except` is the error branch. -/
def isErr {ε α : Type} : Except ε α → Bool
  | .error _ => true
  | .ok _ => false

/-- ASCII lowercasing, modelling Python `str.lower()` on the ASCII strings
used by the configuration. -/
def pyLower (s : String) : String :=
  String.mk (s.data.map Char.toLower)

/-- Characters stripped by Python `str.strip()` (ASCII whitespace; the
source never sees non-ASCII whitespace). -/
def isPySpace (c : Char) : Bool :=
  c == ' ' || c == '\t' || c == '\n' || c == '\x0d' || c == '\x0b' || c == '\x0c'

/-- Python `str.strip()`. -/
def pyStrip (s : String) : String :=
  String.mk (((s.data.dropWhile isPySpace).reverse.dropWhile isPySpace).reverse)

/-- Python `list.count(x)` / substring containment helpers. `occursB n h` is
true when `n` occurs as a contiguous substring of `h`. -/
def occursB (needle : List Char) : List Char → Bool
  | [] => needle.isEmpty
  | c :: rest => List.isPrefixOf needle (c :: rest) || occursB needle rest

/-- Python `s.split(sep)` for a one-character separator, on char lists. -/
def splitOnChar (sep : Char) : List Char → List (List Char)
  | [] => [[]]
  | c :: rest =>
    let r := splitOnChar sep rest
    if c == sep then [] :: r
    else
      match r with
      | h :: t => (c :: h) :: t
      | [] => [[c]]

/-! ## `urllib.parse.urlparse`

Model of the fields of `urlparse` used by `extract_candidate_from_url`:
`scheme`, `netloc` and `path`, following CPython (3.12+) `urlsplit`: the URL
is first stripped of leading C0-control/space characters and of all tab, CR
and LF characters; a scheme is split off at the first `:` when the prefix is
a non-empty ASCII-alpha-led run of scheme characters; a netloc follows `//`
up to the next `/`, `?` or `#`; the path is the remainder up to the first
`#` or `?`.  A netloc with unbalanced square brackets makes CPython raise
`ValueError` (invalid IPv6 URL), modelled as `none`.  Query/fragment
contents and `params` splitting are not represented: no claim involves `;`
in a path. -/

structure UrlParts where
  scheme : String
  netloc : String
  path : String

/-- Valid scheme characters (`scheme_chars` in CPython). -/
def schemeChar (c : Char) : Bool :=
  c.isAlphanum || c == '+' || c == '-' || c == '.'

/-- Leading C0-control-or-space strip plus removal of unsafe bytes, as
CPython `urlsplit` does before parsing. -/
def urlparseClean (s : List Char) : List Char :=
  (s.dropWhile (fun c => c.toNat ≤ 32)).filter (fun c => !(c == '\t' || c == '\x0d' || c == '\n'))

/-- Characters ending the netloc portion. -/
def netlocEnd (c : Char) : Bool :=
  c == '/' || c == '?' || c == '#'

/-- Characters starting the query/fragment portion after the netloc. -/
def fragOrQuery (c : Char) : Bool :=
  c == '#' || c == '?'

/-- `urllib.parse.urlparse`, restricted to the fields the source reads.
`none` models the `ValueError` raised on an invalid IPv6 netloc. -/
def pyUrlparse (url0 : String) : Option UrlParts :=
  let url := urlparseClean url0.data
  let schemeSplit : List Char × List Char :=
    match url.findIdx? (fun c => c == ':') with
    | some i =>
      if 0 < i && (url.take i).all schemeChar && (url.headD 'a').isAlpha then
        ((url.take i).map Char.toLower, url.drop (i + 1))
      else ([], url)
    | none => ([], url)
  let rest := schemeSplit.2
  if rest.take 2 = ['/', '/'] then
    let netloc := (rest.drop 2).takeWhile (fun c => !netlocEnd c)
    let rest2 := (rest.drop 2).dropWhile (fun c => !netlocEnd c)
    if (netloc.contains '[') != (netloc.contains ']') then none
    else some ⟨String.mk schemeSplit.1, String.mk netloc, String.mk (rest2.takeWhile (fun c => !fragOrQuery c))⟩
  else
    some ⟨String.mk schemeSplit.1, "", String.mk (rest.takeWhile (fun c => !fragOrQuery c))⟩

/-- The non-empty segments of a parsed path
(`[seg for seg in p.path.split("/") if seg]`). -/
def nonEmptySegments (path : String) : List String :=
  ((splitOnChar '/' path.data).map String.mk).filter (fun seg => seg != "")

/-- `extract_candidate_from_url` (main.py:169-179): if a full URL is passed,
return the last non-empty path segment; on a parse error (`except`) or when
there is no scheme/netloc or no non-empty segment, return the argument. -/
def extract_candidate_from_url (dash_arg : String) : String :=
  match pyUrlparse dash_arg with
  | none => dash_arg
  | some p =>
    if p.scheme != "" && p.netloc != "" then
      match (nonEmptySegments p.path).getLast? with
      | some lastSeg => lastSeg
      | none => dash_arg
    else dash_arg

/-- Claim-side formalisation: does the reference parse as an absolute URL,
i.e. with both a scheme and a network location? -/
def isAbsUrl (ref : String) : Bool :=
  match pyUrlparse ref with
  | none => false
  | some p => p.scheme != "" && p.netloc != ""

/-- Claim-side formalisation: the last non-empty path segment of the parsed
reference, when one exists. -/
def lastNonEmptySeg (ref : String) : Option String :=
  match pyUrlparse ref with
  | none => none
  | some p => (nonEmptySegments p.path).getLast?

/-! ## `json.loads`

A fuel-indexed recursive-descent parser modelling Python `json.loads` on the
fragment relevant here: `null`, booleans, integer literals, strings without
escape sequences, arrays and objects.  Floats, string escapes and unicode
escapes are not modelled; no claim depends on them (`RLS_JSON` only needs
"is a JSON array" and the parsed default list).  The embedded
`JSONDecodeError` message text is likewise not modelled. -/

/-- Skip JSON whitespace. -/
def skipWs (s : List Char) : List Char :=
  s.dropWhile (fun c => c == ' ' || c == '\t' || c == '\n' || c == '\x0d')

/-- Digits to a natural number. -/
def digitsToNat (ds : List Char) : Nat :=
  ds.foldl (fun n c => 10 * n + (c.toNat - 48)) 0

mutual

/-- Parse one JSON value; returns the value and the unconsumed input. -/
def parseJsonVal : Nat → List Char → Option (Json × List Char)
  | 0, _ => none
  | fuel + 1, s0 =>
    match skipWs s0 with
    | [] => none
    | c :: rest =>
      if c == 'n' then
        if rest.take 3 = ['u', 'l', 'l'] then some (.null, rest.drop 3) else none
      else if c == 't' then
        if rest.take 3 = ['r', 'u', 'e'] then some (.bool true, rest.drop 3) else none
      else if c == 'f' then
        if rest.take 4 = ['a', 'l', 's', 'e'] then some (.bool false, rest.drop 4) else none
      else if c == '"' then
        let content := rest.takeWhile (fun ch => !(ch == '"' || ch == '\\'))
        match rest.drop content.length with
        | '"' :: tail => some (.str (String.mk content), tail)
        | _ => none
      else if c == '-' then
        let ds := rest.takeWhile Char.isDigit
        if ds.isEmpty then none
        else some (.num (-(digitsToNat ds : Int)), rest.drop ds.length)
      else if c.isDigit then
        let ds := (c :: rest).takeWhile Char.isDigit
        some (.num (digitsToNat ds : Int), (c :: rest).drop ds.length)
      else if c == '[' then
        match skipWs rest with
        | ']' :: tail => some (.arr [], tail)
        | _ =>
          match parseJsonItems fuel rest with
          | some (items, ']' :: tail) => some (.arr items, tail)
          | _ => none
      else if c == '\x7b' then
        match skipWs rest with
        | '\x7d' :: tail => some (.obj [], tail)
        | _ =>
          match parseJsonMembers fuel rest with
          | some (entries, '\x7d' :: tail) => some (.obj entries, tail)
          | _ => none
      else none

/-- Parse comma-separated array items, stopping before `]`. -/
def parseJsonItems : Nat → List Char → Option (List Json × List Char)
  | 0, _ => none
  | fuel + 1, s0 =>
    match parseJsonVal fuel s0 with
    | none => none
    | some (v, rest) =>
      match skipWs rest with
      | ',' :: tail =>
        match parseJsonItems fuel tail with
        | some (items, rest2) => some (v :: items, rest2)
        | none => none
      | other => some ([v], other)

/-- Parse comma-separated object members, stopping before the closing brace. -/
def parseJsonMembers : Nat → List Char → Option (List (String × Json) × List Char)
  | 0, _ => none
  | fuel + 1, s0 =>
    match skipWs s0 with
    | '"' :: rest =>
      let key := rest.takeWhile (fun ch => !(ch == '"' || ch == '\\'))
      match rest.drop key.length with
      | '"' :: afterKey =>
        match skipWs afterKey with
        | ':' :: afterColon =>
          match parseJsonVal fuel afterColon with
          | none => none
          | some (v, rest2) =>
            match skipWs rest2 with
            | ',' :: tail =>
              match parseJsonMembers fuel tail with
              | some (entries, rest3) => some ((String.mk key, v) :: entries, rest3)
              | none => none
            | other => some ([(String.mk key, v)], other)
        | _ => none
      | _ => none
    | _ => none

end

/-- `json.loads`: parse a complete JSON document; `none` models
`json.JSONDecodeError`. -/
def json_loads (s : String) : Option Json :=
  match parseJsonVal (s.length + 2) s.data with
  | some (v, rest) => if (skipWs rest).isEmpty then some v else none
  | none => none

/-! ## Configuration (`Config`, main.py:79-110) -/

/-- The process environment: `os.getenv` results for the six settings. -/
structure Env where
  SUPERSET_URL : Option String
  SUPERSET_USERNAME : Option String
  SUPERSET_PASSWORD : Option String
  SUPERSET_LOGIN_PROVIDER : Option String
  VERIFY_SSL : Option String
  RLS_JSON : Option String

/-- Python falsiness of an `os.getenv` result: `None` or the empty string. -/
def pyFalsy : Option String → Bool
  | none => true
  | some s => s == ""

/-- The `Config` class attributes as computed at import time
(main.py:80-86). -/
structure Config where
  SUPERSET_URL : Option String
  SUPERSET_USERNAME : Option String
  SUPERSET_PASSWORD : Option String
  SUPERSET_LOGIN_PROVIDER : String
  VERIFY_SSL : Bool
  RLS_JSON : String

/-- `Config` built from the environment; `VERIFY_SSL` is
`os.getenv("VERIFY_SSL", "true").lower() in {"1", "true", "yes", "y", "on"}`. -/
def Config.ofEnv (e : Env) : Config :=
  { SUPERSET_URL := e.SUPERSET_URL
    SUPERSET_USERNAME := e.SUPERSET_USERNAME
    SUPERSET_PASSWORD := e.SUPERSET_PASSWORD
    SUPERSET_LOGIN_PROVIDER := e.SUPERSET_LOGIN_PROVIDER.getD "db"
    VERIFY_SSL := decide (pyLower (e.VERIFY_SSL.getD "true") ∈ (["1", "true", "yes", "y", "on"] : List String))
    RLS_JSON := e.RLS_JSON.getD "[]" }

/-- A configuration that passed `Config.validate`: the three required
settings are non-empty and `RLS_JSON` has been parsed into a JSON array
(the mutation of `cls.RLS_JSON` in the source). -/
structure ValidConfig where
  SUPERSET_URL : String
  SUPERSET_USERNAME : String
  SUPERSET_PASSWORD : String
  SUPERSET_LOGIN_PROVIDER : String
  VERIFY_SSL : Bool
  RLS_JSON : List Json

/-- `Config.validate` (main.py:88-110): missing/empty required settings give
a 500, then `RLS_JSON` must parse as JSON and be an array. -/
def Config.validate (c : Config) : Except HTTPExc ValidConfig :=
  if pyFalsy c.SUPERSET_URL || pyFalsy c.SUPERSET_USERNAME || pyFalsy c.SUPERSET_PASSWORD then
    .error ⟨500, "Missing environment variables. Set SUPERSET_URL, SUPERSET_USERNAME, SUPERSET_PASSWORD in .env"⟩
  else
    match json_loads c.RLS_JSON with
    | none => .error ⟨500, "RLS_JSON is not valid JSON: <JSONDecodeError>"⟩
    | some j =>
      match j with
      | .arr items =>
        .ok ⟨c.SUPERSET_URL.getD "", c.SUPERSET_USERNAME.getD "", c.SUPERSET_PASSWORD.getD "",
             c.SUPERSET_LOGIN_PROVIDER, c.VERIFY_SSL, items⟩
      | _ => .error ⟨500, "RLS_JSON must be a JSON array, e.g. [] or [\x7b\"clause\":\"tenant_id=\x27acme\x27\"\x7d]"⟩

/-- `get_config` (main.py:260-265): validate and hand the configuration to
the endpoint; `HTTPException`s re-raise unchanged. -/
def get_config (c : Config) : Except HTTPExc ValidConfig :=
  Config.validate c

/-! ## Upstream session client (main.py:115-255)

Each Python function that performs one upstream call is split into the
request it builds and a pure function of the received response (the body of
the Python function after `session.post/get` returns); their composition is
the source function.  The upstream service is an oracle
`backend : Req → HttpResp`. -/

/-- `http_error_detail` (main.py:115-119): the raw response text. -/
def http_error_detail (r : HttpResp) : String :=
  r.text

/-- The login request (main.py:124-133). -/
def loginReq (base username password provider : String) : Req :=
  { method := "POST"
    url := base ++ "/api/v1/security/login"
    payload := some (.obj [("username", .str username), ("password", .str password),
                           ("provider", .str provider), ("refresh", .bool false)]) }

/-- `login` after the response arrives (main.py:134-145): non-200 raises a
400 carrying status and body; 200 with a missing/falsy `access_token` raises
a fixed 400; otherwise the token is returned. -/
def loginResult (r : HttpResp) : Except HTTPExc Json :=
  if r.status_code ≠ 200 then
    .error ⟨400, "Login failed (" ++ toString r.status_code ++ "): " ++ http_error_detail r⟩
  else
    match r.body.get "access_token" with
    | some token =>
      if token.truthy then .ok token
      else .error ⟨400, "Login succeeded but no access_token returned"⟩
    | none => .error ⟨400, "Login succeeded but no access_token returned"⟩

/-- `login` (main.py:122-145). -/
def login (backend : Req → HttpResp) (base username password provider : String) : StepResult Json :=
  let req := loginReq base username password provider
  (loginResult (backend req), [(Step.login, req)])

/-- The CSRF request (main.py:150-155). -/
def csrfReq (base : String) : Req :=
  { method := "GET", url := base ++ "/api/v1/security/csrf_token/", payload := none }

/-- `get_csrf` after the response arrives (main.py:156-166). -/
def csrfResult (r : HttpResp) : Except HTTPExc Json :=
  if r.status_code ≠ 200 then
    .error ⟨400, "Fetching CSRF failed (" ++ toString r.status_code ++ "): " ++ http_error_detail r⟩
  else
    match r.body.get "result" with
    | some csrf =>
      if csrf.truthy then .ok csrf
      else .error ⟨400, "CSRF response missing \x27result\x27"⟩
    | none => .error ⟨400, "CSRF response missing \x27result\x27"⟩

/-- `get_csrf` (main.py:148-166); the bearer token only feeds a header. -/
def get_csrf (backend : Req → HttpResp) (base : String) (access_token : Json) : StepResult Json :=
  let req := csrfReq base
  (csrfResult (backend req), [(Step.csrf, req)])

/-- The dashboard-lookup request (main.py:197-202). -/
def dashboardReq (base candidate : String) : Req :=
  { method := "GET", url := base ++ "/api/v1/dashboard/" ++ candidate, payload := none }

/-- `resolve_dashboard_uuid` after the lookup response arrives
(main.py:203-215): non-200 raises 400 naming the original reference with
the upstream status/body; then `data = r.json().get("result") or {}` and a
missing/falsy `uuid` raises 400 naming the original reference.
`resultOrEmpty` is the `r.json().get("result") or {}` part. -/
def resultOrEmpty (b : Json) : Json :=
  match b.get "result" with
  | some j => if j.truthy then j else .obj []
  | none => .obj []

def resolveLookupResult (r : HttpResp) (dash_arg : String) : Except HTTPExc Json :=
  if r.status_code ≠ 200 then
    .error ⟨400, "Could not resolve dashboard UUID from \x27" ++ dash_arg ++ "\x27 (" ++
                 toString r.status_code ++ "): " ++ http_error_detail r⟩
  else
    match (resultOrEmpty r.body).get "uuid" with
    | some uuid =>
      if uuid.truthy then .ok uuid
      else .error ⟨400, "Dashboard lookup returned no \x27uuid\x27 for \x27" ++ dash_arg ++ "\x27."⟩
    | none => .error ⟨400, "Dashboard lookup returned no \x27uuid\x27 for \x27" ++ dash_arg ++ "\x27."⟩

/-- The body of `resolve_dashboard_uuid` once the candidate is computed
(main.py:192-215): the UUID-shape heuristic short-circuits without any
upstream call, otherwise one lookup request is issued. -/
def resolveCandidate (backend : Req → HttpResp) (base : String) (dash_arg candidate : String) :
    StepResult Json :=
  if candidate.length = 36 ∧ candidate.data.count '-' = 4 then
    (.ok (.str candidate), [])
  else
    let req := dashboardReq base candidate
    (resolveLookupResult (backend req) dash_arg, [(Step.resolve, req)])

/-- `resolve_dashboard_uuid` (main.py:182-215):
`candidate = extract_candidate_from_url(dash_arg).strip()` followed by the
shape check / lookup.  The bearer token only feeds a header. -/
def resolve_dashboard_uuid (backend : Req → HttpResp) (base : String) (access_token : Json)
    (dash_arg : String) : StepResult Json :=
  resolveCandidate backend base dash_arg (pyStrip (extract_candidate_from_url dash_arg))

/-- The guest-token issuance request with its payload (main.py:228-244). -/
def guestTokenReq (base : String) (dashboard_uuid : Json) (rls : List Json)
    (username : Option String) : Req :=
  { method := "POST"
    url := base ++ "/api/v1/security/guest_token/"
    payload := some (.obj [
      ("resources", .arr [.obj [("type", .str "dashboard"), ("id", dashboard_uuid)]]),
      ("user", .obj [("username", match username with | some s => .str s | none => .null)]),
      ("rls", .arr rls)]) }

/-- `generate_guest_token` after the response arrives (main.py:245-255). -/
def guestTokenResult (r : HttpResp) : Except HTTPExc Json :=
  if r.status_code ≠ 200 then
    .error ⟨400, "guest_token request failed (" ++ toString r.status_code ++ "): " ++ http_error_detail r⟩
  else
    match r.body.get "token" with
    | some token =>
      if token.truthy then .ok token
      else .error ⟨400, "guest_token response missing \x27token\x27"⟩
    | none => .error ⟨400, "guest_token response missing \x27token\x27"⟩

/-- `generate_guest_token` (main.py:218-255); the bearer/CSRF tokens only
feed headers. -/
def generate_guest_token (backend : Req → HttpResp) (base : String)
    (access_token csrf_token dashboard_uuid : Json) (rls : List Json)
    (username : Option String) : StepResult Json :=
  let req := guestTokenReq base dashboard_uuid rls username
  (guestTokenResult (backend req), [(Step.issue, req)])

/-! ## Request parsing (pydantic `GuestTokenRequest`, main.py:51-63) -/

/-- A JSON field of an inbound request body: absent, explicit `null`, or a
value. -/
inductive FieldVal (α : Type) where
  | absent
  | null
  | val (a : α)

/-- The wire-level body of `POST /generate-token`. -/
structure RequestBody where
  dashboard : String
  username : FieldVal String
  rls : FieldVal (List Json)

/-- The parsed pydantic model: `username: Optional[str] = "guest_via_api"`,
`rls: Optional[List[dict]] = Field(default_factory=list)`.  An absent field
takes the pydantic default (`"guest_via_api"` / the `default_factory`
result `[]`); an explicit `null` yields `None`. -/
structure GuestTokenRequest where
  dashboard : String
  username : Option String
  rls : Option (List Json)

/-- Pydantic validation of the inbound body. -/
def parseGuestTokenRequest (b : RequestBody) : GuestTokenRequest :=
  { dashboard := b.dashboard
    username := match b.username with
      | .absent => some "guest_via_api"
      | .null => none
      | .val s => some s
    rls := match b.rls with
      | .absent => some []
      | .null => none
      | .val items => some items }

/-! ## Orchestrator and endpoints (main.py:293-381) -/

/-- The response model `GuestTokenResponse` (main.py:66-69). -/
structure GuestTokenResponse where
  token : Json
  dashboard_uuid : Json
  message : String

/-- Base-URL normalisation (main.py:301):
`config.SUPERSET_URL[:-1] if config.SUPERSET_URL.endswith("/") else ...`. -/
def stripTrailingSlash (s : String) : String :=
  if s.data.getLast? = some '/' then String.mk s.data.dropLast else s

/-- The base URL used by an endpoint run. -/
def baseOf (cfg : ValidConfig) : String :=
  stripTrailingSlash cfg.SUPERSET_URL

/-- RLS selection (main.py:304):
`request.rls if request.rls is not None else config.RLS_JSON`. -/
def rlsOf (cfg : ValidConfig) (req : GuestTokenRequest) : List Json :=
  match req.rls with
  | none => cfg.RLS_JSON
  | some items => items

/-- The four-step pipeline inside `generate_guest_token_endpoint`
(main.py:306-337): login, CSRF fetch, resolve, issue, in that order, each
aborting the rest on failure. -/
def run_pipeline (backend : Req → HttpResp) (cfg : ValidConfig) (req : GuestTokenRequest) :
    StepResult GuestTokenResponse :=
  andThen (login backend (baseOf cfg) cfg.SUPERSET_USERNAME cfg.SUPERSET_PASSWORD
            cfg.SUPERSET_LOGIN_PROVIDER) (fun access_token =>
  andThen (get_csrf backend (baseOf cfg) access_token) (fun csrf_token =>
  andThen (resolve_dashboard_uuid backend (baseOf cfg) access_token req.dashboard) (fun dashboard_uuid =>
  andThen (generate_guest_token backend (baseOf cfg) access_token csrf_token dashboard_uuid
            (rlsOf cfg req) req.username) (fun token =>
  (.ok ⟨token, dashboard_uuid, "Guest token generated successfully"⟩, [])))))

/-- `POST /generate-token` (main.py:293-345): dependency-validate the
configuration, then run the pipeline.  `HTTPException`s propagate unchanged
(`except HTTPException: raise`); the totality of the embedding leaves no
other exceptions for the 500 catch-all. -/
def generate_guest_token_endpoint (backend : Req → HttpResp) (env : Env) (body : RequestBody) :
    StepResult GuestTokenResponse :=
  match get_config (Config.ofEnv env) with
  | .error e => (.error e, [])
  | .ok cfg => run_pipeline backend cfg (parseGuestTokenRequest body)

/-- The response of `GET /dashboard/{dashboard_id}` (main.py:369-373). -/
structure DashboardInfoResponse where
  dashboard_id : String
  dashboard_uuid : Json
  message : String

/-- `GET /dashboard/{dashboard_id}` (main.py:348-381): validate
configuration, login, resolve; no issuance. -/
def get_dashboard_info (backend : Req → HttpResp) (env : Env) (dashboard_id : String) :
    StepResult DashboardInfoResponse :=
  match get_config (Config.ofEnv env) with
  | .error e => (.error e, [])
  | .ok cfg =>
    andThen (login backend (baseOf cfg) cfg.SUPERSET_USERNAME cfg.SUPERSET_PASSWORD
              cfg.SUPERSET_LOGIN_PROVIDER) (fun access_token =>
    andThen (resolve_dashboard_uuid backend (baseOf cfg) access_token dashboard_id) (fun dashboard_uuid =>
    (.ok ⟨dashboard_id, dashboard_uuid, "Dashboard UUID resolved successfully"⟩, [])))

/-! ## Exception handlers (main.py:386-393) -/

/-- What a registered exception handler returns.  FastAPI expects a
`Response` (which carries a status code); the source instead returns a bare
dict, which carries no status code at all. -/
inductive HandlerReturn where
  | dictBody (entries : List (String × Json))
  | jsonResponse (status : Nat) (body : Json)

/-- The status code a handler return would send, when it is a `Response`. -/
def HandlerReturn.statusCode? : HandlerReturn → Option Nat
  | .dictBody _ => none
  | .jsonResponse status _ => some status

/-- `http_exception_handler` (main.py:386-388): returns the bare dict
`{"error": "HTTP Error", "detail": exc.detail}`. -/
def http_exception_handler (exc : HTTPExc) : HandlerReturn :=
  .dictBody [("error", .str "HTTP Error"), ("detail", .str exc.detail)]

/-- `general_exception_handler` (main.py:391-393): returns the bare dict
`{"error": "Internal Server Error", "detail": str(exc)}`. -/
def general_exception_handler (excMessage : String) : HandlerReturn :=
  .dictBody [("error", .str "Internal Server Error"), ("detail", .str excMessage)]

/-! ## Concrete fixtures used by witnesses and counterexamples -/

/-- A sample bearer token. -/
def tok0 : Json := .str "a1"

/-- A backend whose every response is a 401. -/
def bk401 : Req → HttpResp :=
  fun _ => ⟨401, "unauthorized", .null⟩

/-- An environment with every variable unset. -/
def envNone : Env := ⟨none, none, none, none, none, none⟩

/-- A minimal valid environment (default provider, TLS flag and RLS). -/
def envOk : Env := ⟨some "http://s", some "u", some "p", none, none, none⟩

/-- A minimal request body with both optional fields absent. -/
def body0 : RequestBody := ⟨"42", .absent, .absent⟩

/-- A validated configuration for pipeline runs. -/
def cfg0 : ValidConfig := ⟨"http://s", "u", "p", "db", true, []⟩

/-- A parsed token request. -/
def req0 : GuestTokenRequest := ⟨"42", some "guest_via_api", some []⟩

/-- Backend for the C3 counterexample: resolves the extracted segment. -/
def bkC3 : Req → HttpResp := fun r =>
  if r.url = "http://base/api/v1/dashboard/aa-bb-cc-dd-ee" then
    ⟨200, "", .obj [("result", .obj [("uuid", .str "resolved-uuid")])]⟩
  else ⟨404, "not found", .null⟩

/-- Backend distinguishing the two lookup URLs of the C8 counterexample. -/
def bkC8 : Req → HttpResp := fun r =>
  if r.url = "http://s/api/v1/dashboard/http://a/" then
    ⟨200, "", .obj [("result", .obj [("uuid", .str "A")])]⟩
  else if r.url = "http://s/api/v1/dashboard/" then
    ⟨200, "", .obj [("result", .obj [("uuid", .str "B")])]⟩
  else ⟨404, "", .null⟩

/-- Backend for the C8 witness: resolves numeric id 42. -/
def bkC8w : Req → HttpResp := fun r =>
  if r.url = "http://s/api/v1/dashboard/42" then
    ⟨200, "", .obj [("result", .obj [("uuid", .str "u1")])]⟩
  else ⟨404, "nf", .null⟩

/-- Backend for the C10 witness: a 200 lookup whose `result` is `null`. -/
def bkC10 : Req → HttpResp := fun r =>
  if r.url = "http://s/api/v1/dashboard/7" then ⟨200, "", .obj [("result", Json.null)]⟩
  else ⟨404, "", .null⟩

/-- A 200 login response whose `access_token` is present but empty. -/
def respC7 : HttpResp := ⟨200, "RAWBODY", .obj [("access_token", .str "")]⟩

/-- Environment for the C1 run: a non-empty default RLS list. -/
def envC1 : Env := ⟨some "https://sup.example/", some "admin", some "pw", none, none, some "[1]"⟩

/-- Request body omitting `rls` (dashboard already UUID-shaped). -/
def bodyC1 : RequestBody := ⟨"11111111-2222-3333-4444-555555555555", .absent, .absent⟩

/-- The same body with an explicit `"rls": null`. -/
def bodyC1null : RequestBody := ⟨"11111111-2222-3333-4444-555555555555", .absent, .null⟩

/-- The same body with an explicit non-empty `rls` list. -/
def bodyC1list : RequestBody := ⟨"11111111-2222-3333-4444-555555555555", .absent, .val [Json.str "r"]⟩

/-- A fully successful backend for the C1 run. -/
def bkC1 : Req → HttpResp := fun r =>
  if r.url = "https://sup.example/api/v1/security/login" then ⟨200, "", .obj [("access_token", .str "a1")]⟩
  else if r.url = "https://sup.example/api/v1/security/csrf_token/" then ⟨200, "", .obj [("result", .str "c1")]⟩
  else if r.url = "https://sup.example/api/v1/security/guest_token/" then ⟨200, "", .obj [("token", .str "gt-xyz")]⟩
  else ⟨404, "not found", .null⟩

/-- The `rls` field of the payload of the issuance request in a call log. -/
def issueRls (log : List Entry) : Option Json :=
  (log.find? (fun en => en.1 == Step.issue)).bind
    (fun en => en.2.payload.bind (fun p => p.get "rls"))

/-! ## Helper lemmas -/

theorem andThen_error {α β : Type} (x : StepResult α) (f : α → StepResult β) (e : HTTPExc)
    (h : x.1 = .error e) : andThen x f = (.error e, x.2) := by
  obtain ⟨x1, log⟩ := x
  dsimp at h
  subst h
  rfl

theorem andThen_ok {α β : Type} (x : StepResult α) (f : α → StepResult β) (a : α)
    (h : x.1 = .ok a) : andThen x f = ((f a).1, x.2 ++ (f a).2) := by
  obtain ⟨x1, log⟩ := x
  dsimp at h
  subst h
  rfl

theorem occursB_self_append (n b : List Char) : occursB n (n ++ b) = true := by
  have hpre : List.isPrefixOf n (n ++ b) = true := by
    rw [List.isPrefixOf_iff_prefix]
    exact List.prefix_append n b
  cases h : n ++ b with
  | nil =>
    obtain ⟨hn, _⟩ := List.append_eq_nil.mp h
    subst hn
    rfl
  | cons c t =>
    rw [h] at hpre
    simp [occursB, hpre]

theorem occursB_append (a n b : List Char) : occursB n (a ++ (n ++ b)) = true := by
  induction a with
  | nil => simpa using occursB_self_append n b
  | cons c t ih => simp [occursB, ih]

theorem extract_of_not_absUrl (ref : String) (h : isAbsUrl ref = false) :
    extract_candidate_from_url ref = ref := by
  unfold isAbsUrl at h
  unfold extract_candidate_from_url
  cases hp : pyUrlparse ref with
  | none => rfl
  | some p =>
    rw [hp] at h
    dsimp only at h
    simp [h]

theorem resolve_err_log (backend : Req → HttpResp) (base : String) (tok : Json)
    (dash_arg : String) (e : HTTPExc)
    (h : (resolve_dashboard_uuid backend base tok dash_arg).1 = .error e) :
    (resolve_dashboard_uuid backend base tok dash_arg).2 =
      [(Step.resolve, dashboardReq base (pyStrip (extract_candidate_from_url dash_arg)))] := by
  by_cases hc : (pyStrip (extract_candidate_from_url dash_arg)).length = 36 ∧
      (pyStrip (extract_candidate_from_url dash_arg)).data.count '-' = 4
  · exfalso
    unfold resolve_dashboard_uuid resolveCandidate at h
    rw [if_pos hc] at h
    exact Except.noConfusion h
  · unfold resolve_dashboard_uuid resolveCandidate
    rw [if_neg hc]

theorem pipeline_login_err (backend : Req → HttpResp) (cfg : ValidConfig)
    (req : GuestTokenRequest) (e : HTTPExc)
    (h : (login backend (baseOf cfg) cfg.SUPERSET_USERNAME cfg.SUPERSET_PASSWORD
            cfg.SUPERSET_LOGIN_PROVIDER).1 = .error e) :
    run_pipeline backend cfg req =
      (.error e, [(Step.login, loginReq (baseOf cfg) cfg.SUPERSET_USERNAME
                    cfg.SUPERSET_PASSWORD cfg.SUPERSET_LOGIN_PROVIDER)]) := by
  unfold run_pipeline
  rw [andThen_error _ _ e h]
  rfl

theorem pipeline_csrf_err (backend : Req → HttpResp) (cfg : ValidConfig)
    (req : GuestTokenRequest) (tok : Json) (e : HTTPExc)
    (h1 : (login backend (baseOf cfg) cfg.SUPERSET_USERNAME cfg.SUPERSET_PASSWORD
            cfg.SUPERSET_LOGIN_PROVIDER).1 = .ok tok)
    (h2 : (get_csrf backend (baseOf cfg) tok).1 = .error e) :
    run_pipeline backend cfg req =
      (.error e, [(Step.login, loginReq (baseOf cfg) cfg.SUPERSET_USERNAME
                    cfg.SUPERSET_PASSWORD cfg.SUPERSET_LOGIN_PROVIDER),
                  (Step.csrf, csrfReq (baseOf cfg))]) := by
  unfold run_pipeline
  rw [andThen_ok _ _ tok h1, andThen_error _ _ e h2]
  rfl

theorem pipeline_resolve_err (backend : Req → HttpResp) (cfg : ValidConfig)
    (req : GuestTokenRequest) (tok cs : Json) (e : HTTPExc)
    (h1 : (login backend (baseOf cfg) cfg.SUPERSET_USERNAME cfg.SUPERSET_PASSWORD
            cfg.SUPERSET_LOGIN_PROVIDER).1 = .ok tok)
    (h2 : (get_csrf backend (baseOf cfg) tok).1 = .ok cs)
    (h3 : (resolve_dashboard_uuid backend (baseOf cfg) tok req.dashboard).1 = .error e) :
    run_pipeline backend cfg req =
      (.error e, [(Step.login, loginReq (baseOf cfg) cfg.SUPERSET_USERNAME
                    cfg.SUPERSET_PASSWORD cfg.SUPERSET_LOGIN_PROVIDER),
                  (Step.csrf, csrfReq (baseOf cfg)),
                  (Step.resolve, dashboardReq (baseOf cfg)
                    (pyStrip (extract_candidate_from_url req.dashboard)))]) := by
  unfold run_pipeline
  rw [andThen_ok _ _ tok h1, andThen_ok _ _ cs h2, andThen_error _ _ e h3,
      resolve_err_log backend (baseOf cfg) tok req.dashboard e h3]
  rfl

theorem pipeline_issue_err (backend : Req → HttpResp) (cfg : ValidConfig)
    (req : GuestTokenRequest) (tok cs uuid : Json) (e : HTTPExc)
    (h1 : (login backend (baseOf cfg) cfg.SUPERSET_USERNAME cfg.SUPERSET_PASSWORD
            cfg.SUPERSET_LOGIN_PROVIDER).1 = .ok tok)
    (h2 : (get_csrf backend (baseOf cfg) tok).1 = .ok cs)
    (h3 : (resolve_dashboard_uuid backend (baseOf cfg) tok req.dashboard).1 = .ok uuid)
    (h4 : (generate_guest_token backend (baseOf cfg) tok cs uuid (rlsOf cfg req)
            req.username).1 = .error e) :
    run_pipeline backend cfg req =
      (.error e, ([(Step.login, loginReq (baseOf cfg) cfg.SUPERSET_USERNAME
                     cfg.SUPERSET_PASSWORD cfg.SUPERSET_LOGIN_PROVIDER),
                   (Step.csrf, csrfReq (baseOf cfg))] ++
                  (resolve_dashboard_uuid backend (baseOf cfg) tok req.dashboard).2 ++
                  [(Step.issue, guestTokenReq (baseOf cfg) uuid (rlsOf cfg req)
                     req.username)])) := by
  unfold run_pipeline
  rw [andThen_ok _ _ tok h1, andThen_ok _ _ cs h2, andThen_ok _ _ uuid h3,
      andThen_error _ _ e h4]
  rfl

theorem pipeline_success (backend : Req → HttpResp) (cfg : ValidConfig)
    (req : GuestTokenRequest) (tok cs uuid gt : Json)
    (h1 : (login backend (baseOf cfg) cfg.SUPERSET_USERNAME cfg.SUPERSET_PASSWORD
            cfg.SUPERSET_LOGIN_PROVIDER).1 = .ok tok)
    (h2 : (get_csrf backend (baseOf cfg) tok).1 = .ok cs)
    (h3 : (resolve_dashboard_uuid backend (baseOf cfg) tok req.dashboard).1 = .ok uuid)
    (h4 : (generate_guest_token backend (baseOf cfg) tok cs uuid (rlsOf cfg req)
            req.username).1 = .ok gt) :
    run_pipeline backend cfg req =
      (.ok ⟨gt, uuid, "Guest token generated successfully"⟩,
       ([(Step.login, loginReq (baseOf cfg) cfg.SUPERSET_USERNAME
           cfg.SUPERSET_PASSWORD cfg.SUPERSET_LOGIN_PROVIDER),
         (Step.csrf, csrfReq (baseOf cfg))] ++
        (resolve_dashboard_uuid backend (baseOf cfg) tok req.dashboard).2 ++
        [(Step.issue, guestTokenReq (baseOf cfg) uuid (rlsOf cfg req) req.username)])) := by
  unfold run_pipeline
  rw [andThen_ok _ _ tok h1, andThen_ok _ _ cs h2, andThen_ok _ _ uuid h3,
      andThen_ok _ _ gt h4]
  rfl

theorem resolveLookupResult_same_shape (r : HttpResp) (d1 d2 : String) :
    (∀ j, resolveLookupResult r d1 = .ok j ↔ resolveLookupResult r d2 = .ok j) ∧
    (∀ e1 e2, resolveLookupResult r d1 = .error e1 → resolveLookupResult r d2 = .error e2 →
      e1.status_code = e2.status_code) := by
  constructor
  · intro j
    unfold resolveLookupResult
    split
    · constructor <;> intro h <;> exact Except.noConfusion h
    · split
      · split
        · exact Iff.rfl
        · constructor <;> intro h <;> exact Except.noConfusion h
      · constructor <;> intro h <;> exact Except.noConfusion h
  · intro e1 e2
    unfold resolveLookupResult
    split
    · intro h1 h2
      cases h1
      cases h2
      rfl
    · split
      · split
        · intro h1 h2
          exact Except.noConfusion h1
        · intro h1 h2
          cases h1
          cases h2
          rfl
      · intro h1 h2
        cases h1
        cases h2
        rfl

/-! ## Claim theorems -/

/-- C2: the claim says every failure is serialized as a `{error, detail}`
JSON body with the mapped status code (400 upstream/input, 500
configuration/unexpected).  The registered handlers do produce the
`{error, detail}` body shape, but they return a bare dict instead of a
`Response`, so no status code at all is attached to what they return: the
claimed 400/500 mapping is not implemented by the handlers. -/
theorem C2_handler_has_no_status (exc : HTTPExc) (excMessage : String) :
    http_exception_handler exc =
      .dictBody [("error", .str "HTTP Error"), ("detail", .str exc.detail)] ∧
    (http_exception_handler exc).statusCode? = none ∧
    (general_exception_handler excMessage).statusCode? = none :=
  ⟨rfl, rfl, rfl⟩

/-- C9: TLS verification is enabled iff the lowercased `VERIFY_SSL`
environment value is one of `1/true/yes/y/on`, defaulting to `"true"` when
unset; every other string disables it. -/
theorem C9_verify_ssl (e : Env) :
    ((Config.ofEnv e).VERIFY_SSL = true ↔
      pyLower (e.VERIFY_SSL.getD "true") ∈ (["1", "true", "yes", "y", "on"] : List String)) ∧
    (e.VERIFY_SSL = none → (Config.ofEnv e).VERIFY_SSL = true) := by
  constructor
  · exact decide_eq_true_iff
  · intro h
    simp only [Config.ofEnv, h, Option.getD]
    decide

/-- Witness for C9 at a concrete environment: unset `VERIFY_SSL` enables
verification. -/
theorem C9_verify_ssl_witness : (Config.ofEnv envNone).VERIFY_SSL = true :=
  (C9_verify_ssl envNone).2 rfl

/-- C6: while any of `SUPERSET_URL`, `SUPERSET_USERNAME`,
`SUPERSET_PASSWORD` is missing or empty, both endpoints fail with the
status-500 configuration error and the upstream call log is empty (no
network call is attempted). -/
theorem C6_missing_config_fails_fast (backend : Req → HttpResp) (env : Env)
    (body : RequestBody) (dashboard_id : String)
    (h : pyFalsy env.SUPERSET_URL = true ∨ pyFalsy env.SUPERSET_USERNAME = true ∨
         pyFalsy env.SUPERSET_PASSWORD = true) :
    generate_guest_token_endpoint backend env body =
      (.error ⟨500, "Missing environment variables. Set SUPERSET_URL, SUPERSET_USERNAME, SUPERSET_PASSWORD in .env"⟩, []) ∧
    get_dashboard_info backend env dashboard_id =
      (.error ⟨500, "Missing environment variables. Set SUPERSET_URL, SUPERSET_USERNAME, SUPERSET_PASSWORD in .env"⟩, []) := by
  have hb : (pyFalsy (Config.ofEnv env).SUPERSET_URL ||
             pyFalsy (Config.ofEnv env).SUPERSET_USERNAME ||
             pyFalsy (Config.ofEnv env).SUPERSET_PASSWORD) = true := by
    rcases h with h | h | h <;> simp [Config.ofEnv, h]
  constructor <;>
    simp [generate_guest_token_endpoint, get_dashboard_info, get_config, Config.validate, hb]

/-- Witness for C6: the all-unset environment fails both endpoints with the
500 configuration error and no upstream call. -/
theorem C6_missing_config_witness :
    generate_guest_token_endpoint bk401 envNone body0 =
      (.error ⟨500, "Missing environment variables. Set SUPERSET_URL, SUPERSET_USERNAME, SUPERSET_PASSWORD in .env"⟩, []) ∧
    get_dashboard_info bk401 envNone "42" =
      (.error ⟨500, "Missing environment variables. Set SUPERSET_URL, SUPERSET_USERNAME, SUPERSET_PASSWORD in .env"⟩, []) :=
  C6_missing_config_fails_fast bk401 envNone body0 "42" (Or.inl rfl)

/-- C4: the pipeline always runs Login, CSRF, Resolve, Issue in that strict
order; when step k is the first to fail, its error is the endpoint result
unchanged and the call log contains exactly the calls of steps 1..k (so
steps k+1..4 never execute); when every step succeeds the log holds all
four steps' calls in order. -/
theorem C4_pipeline_order :
    (∀ (backend : Req → HttpResp) (cfg : ValidConfig) (req : GuestTokenRequest) (e : HTTPExc),
      (login backend (baseOf cfg) cfg.SUPERSET_USERNAME cfg.SUPERSET_PASSWORD
        cfg.SUPERSET_LOGIN_PROVIDER).1 = .error e →
      run_pipeline backend cfg req =
        (.error e, [(Step.login, loginReq (baseOf cfg) cfg.SUPERSET_USERNAME
                      cfg.SUPERSET_PASSWORD cfg.SUPERSET_LOGIN_PROVIDER)])) ∧
    (∀ (backend : Req → HttpResp) (cfg : ValidConfig) (req : GuestTokenRequest)
       (tok : Json) (e : HTTPExc),
      (login backend (baseOf cfg) cfg.SUPERSET_USERNAME cfg.SUPERSET_PASSWORD
        cfg.SUPERSET_LOGIN_PROVIDER).1 = .ok tok →
      (get_csrf backend (baseOf cfg) tok).1 = .error e →
      run_pipeline backend cfg req =
        (.error e, [(Step.login, loginReq (baseOf cfg) cfg.SUPERSET_USERNAME
                      cfg.SUPERSET_PASSWORD cfg.SUPERSET_LOGIN_PROVIDER),
                    (Step.csrf, csrfReq (baseOf cfg))])) ∧
    (∀ (backend : Req → HttpResp) (cfg : ValidConfig) (req : GuestTokenRequest)
       (tok cs : Json) (e : HTTPExc),
      (login backend (baseOf cfg) cfg.SUPERSET_USERNAME cfg.SUPERSET_PASSWORD
        cfg.SUPERSET_LOGIN_PROVIDER).1 = .ok tok →
      (get_csrf backend (baseOf cfg) tok).1 = .ok cs →
      (resolve_dashboard_uuid backend (baseOf cfg) tok req.dashboard).1 = .error e →
      run_pipeline backend cfg req =
        (.error e, [(Step.login, loginReq (baseOf cfg) cfg.SUPERSET_USERNAME
                      cfg.SUPERSET_PASSWORD cfg.SUPERSET_LOGIN_PROVIDER),
                    (Step.csrf, csrfReq (baseOf cfg)),
                    (Step.resolve, dashboardReq (baseOf cfg)
                      (pyStrip (extract_candidate_from_url req.dashboard)))])) ∧
    (∀ (backend : Req → HttpResp) (cfg : ValidConfig) (req : GuestTokenRequest)
       (tok cs uuid : Json) (e : HTTPExc),
      (login backend (baseOf cfg) cfg.SUPERSET_USERNAME cfg.SUPERSET_PASSWORD
        cfg.SUPERSET_LOGIN_PROVIDER).1 = .ok tok →
      (get_csrf backend (baseOf cfg) tok).1 = .ok cs →
      (resolve_dashboard_uuid backend (baseOf cfg) tok req.dashboard).1 = .ok uuid →
      (generate_guest_token backend (baseOf cfg) tok cs uuid (rlsOf cfg req)
        req.username).1 = .error e →
      run_pipeline backend cfg req =
        (.error e, ([(Step.login, loginReq (baseOf cfg) cfg.SUPERSET_USERNAME
                       cfg.SUPERSET_PASSWORD cfg.SUPERSET_LOGIN_PROVIDER),
                     (Step.csrf, csrfReq (baseOf cfg))] ++
                    (resolve_dashboard_uuid backend (baseOf cfg) tok req.dashboard).2 ++
                    [(Step.issue, guestTokenReq (baseOf cfg) uuid (rlsOf cfg req)
                       req.username)]))) ∧
    (∀ (backend : Req → HttpResp) (cfg : ValidConfig) (req : GuestTokenRequest)
       (tok cs uuid gt : Json),
      (login backend (baseOf cfg) cfg.SUPERSET_USERNAME cfg.SUPERSET_PASSWORD
        cfg.SUPERSET_LOGIN_PROVIDER).1 = .ok tok →
      (get_csrf backend (baseOf cfg) tok).1 = .ok cs →
      (resolve_dashboard_uuid backend (baseOf cfg) tok req.dashboard).1 = .ok uuid →
      (generate_guest_token backend (baseOf cfg) tok cs uuid (rlsOf cfg req)
        req.username).1 = .ok gt →
      run_pipeline backend cfg req =
        (.ok ⟨gt, uuid, "Guest token generated successfully"⟩,
         ([(Step.login, loginReq (baseOf cfg) cfg.SUPERSET_USERNAME
             cfg.SUPERSET_PASSWORD cfg.SUPERSET_LOGIN_PROVIDER),
           (Step.csrf, csrfReq (baseOf cfg))] ++
          (resolve_dashboard_uuid backend (baseOf cfg) tok req.dashboard).2 ++
          [(Step.issue, guestTokenReq (baseOf cfg) uuid (rlsOf cfg req) req.username)]))) :=
  ⟨pipeline_login_err, pipeline_csrf_err, pipeline_resolve_err, pipeline_issue_err,
   pipeline_success⟩

/-- Witness for C4: with a backend that rejects the login (401), the
pipeline stops after the login call with that step's error unchanged. -/
theorem C4_pipeline_order_witness :
    run_pipeline bk401 cfg0 req0 =
      (.error ⟨400, "Login failed (401): unauthorized"⟩,
       [(Step.login, loginReq "http://s" "u" "p" "db")]) :=
  C4_pipeline_order.1 bk401 cfg0 req0 ⟨400, "Login failed (401): unauthorized"⟩ rfl

/-- C5 (amended): for every reference that parses as an absolute URL *and*
whose path has at least one non-empty segment, the candidate is the last
non-empty segment; for every other reference — including absolute URLs
whose path has no non-empty segment — the reference itself is used
verbatim. -/
theorem C5_candidate_extraction (ref : String) :
    (isAbsUrl ref = true →
      (∀ s, lastNonEmptySeg ref = some s → extract_candidate_from_url ref = s) ∧
      (lastNonEmptySeg ref = none → extract_candidate_from_url ref = ref)) ∧
    (isAbsUrl ref = false → extract_candidate_from_url ref = ref) := by
  constructor
  · intro ha
    unfold isAbsUrl at ha
    unfold lastNonEmptySeg extract_candidate_from_url
    cases hp : pyUrlparse ref with
    | none => rw [hp] at ha; exact Bool.noConfusion ha
    | some p =>
      rw [hp] at ha
      dsimp only at ha ⊢
      rw [if_pos ha]
      constructor
      · intro s hs
        rw [hs]
      · intro hs
        rw [hs]
  · intro ha
    exact extract_of_not_absUrl ref ha

/-- Counterexample for C5 as stated: `"http://host"` parses as an absolute
URL (scheme `http`, netloc `host`) but has no non-empty path segment, so
there is no "last non-empty path segment" to use — the code falls back to
the whole reference instead. -/
theorem C5_counterexample :
    ¬ (∀ ref : String, isAbsUrl ref = true →
        ∃ s, lastNonEmptySeg ref = some s ∧ extract_candidate_from_url ref = s) := by
  intro hclaim
  obtain ⟨s, hs, _⟩ := hclaim "http://host" (by decide)
  have hnone : lastNonEmptySeg "http://host" = none := by decide
  rw [hnone] at hs
  exact Option.noConfusion hs

/-- Witness for C5 (amended) at a concrete URL reference. -/
theorem C5_candidate_extraction_witness :
    extract_candidate_from_url "https://x.example/d/abc-4" = "abc-4" :=
  ((C5_candidate_extraction "https://x.example/d/abc-4").1 (by decide)).1 "abc-4" (by decide)

/-- C3 (amended): the UUID-shape short-circuit applies to the *candidate*
(the reference after URL-segment extraction and whitespace stripping): when
that candidate has exactly 36 characters and exactly 4 hyphens it is
returned as-is with no upstream call; in particular a 36-character 4-hyphen
reference that does not parse as an absolute URL and carries no surrounding
whitespace is returned unchanged with no upstream call. -/
theorem C3_uuid_heuristic (backend : Req → HttpResp) (base : String) (tok : Json)
    (ref : String)
    (h1 : (pyStrip (extract_candidate_from_url ref)).length = 36)
    (h2 : (pyStrip (extract_candidate_from_url ref)).data.count '-' = 4) :
    resolve_dashboard_uuid backend base tok ref =
      (.ok (.str (pyStrip (extract_candidate_from_url ref))), []) ∧
    (isAbsUrl ref = false → pyStrip ref = ref →
      resolve_dashboard_uuid backend base tok ref = (.ok (.str ref), [])) := by
  have hmain : resolve_dashboard_uuid backend base tok ref =
      (.ok (.str (pyStrip (extract_candidate_from_url ref))), []) := by
    unfold resolve_dashboard_uuid resolveCandidate
    rw [if_pos ⟨h1, h2⟩]
  refine ⟨hmain, fun ha hstrip => ?_⟩
  rw [hmain, extract_of_not_absUrl ref ha, hstrip]

/-- Counterexample for C3 as stated: this reference has exactly 36
characters and exactly 4 hyphens, yet it is URL-shaped, so the resolver
extracts the last path segment, performs an upstream lookup (non-empty call
log) and returns the looked-up uuid rather than the reference unchanged. -/
theorem C3_counterexample :
    ("http://abcdefghij.com/aa-bb-cc-dd-ee" : String).length = 36 ∧
    ("http://abcdefghij.com/aa-bb-cc-dd-ee" : String).data.count '-' = 4 ∧
    resolve_dashboard_uuid bkC3 "http://base" tok0 "http://abcdefghij.com/aa-bb-cc-dd-ee" =
      (.ok (.str "resolved-uuid"),
       [(Step.resolve, dashboardReq "http://base" "aa-bb-cc-dd-ee")]) ∧
    ("resolved-uuid" : String) ≠ "http://abcdefghij.com/aa-bb-cc-dd-ee" ∧
    [(Step.resolve, dashboardReq "http://base" "aa-bb-cc-dd-ee")] ≠ ([] : List Entry) :=
  ⟨by decide, by decide, rfl, by decide, by simp⟩

/-- Witness for C3 (amended) at a concrete non-URL UUID-shaped reference. -/
theorem C3_uuid_heuristic_witness :
    resolve_dashboard_uuid bk401 "http://s" tok0 "123e4567-e89b-12d3-a456-426614174000" =
      (.ok (.str "123e4567-e89b-12d3-a456-426614174000"), []) :=
  (C3_uuid_heuristic bk401 "http://s" tok0 "123e4567-e89b-12d3-a456-426614174000"
    (by decide) (by decide)).2 (by decide) (by decide)

/-- C10: when the dashboard lookup returns 200 but its JSON lacks a
`result` object, or the result is `null`, or the result object lacks a
`uuid` field, the resolver raises the status-400 resolution error whose
detail names the original reference (no attribute/key crash is possible
here because of the `or {}` fallback; the embedding of this path is
total). -/
theorem C10_lookup_missing_uuid (backend : Req → HttpResp) (base : String) (tok : Json)
    (dash_arg : String)
    (hshape : ¬((pyStrip (extract_candidate_from_url dash_arg)).length = 36 ∧
               (pyStrip (extract_candidate_from_url dash_arg)).data.count '-' = 4))
    (hstatus : (backend (dashboardReq base
      (pyStrip (extract_candidate_from_url dash_arg)))).status_code = 200)
    (hbody : (backend (dashboardReq base
        (pyStrip (extract_candidate_from_url dash_arg)))).body.get "result" = none ∨
      (backend (dashboardReq base
        (pyStrip (extract_candidate_from_url dash_arg)))).body.get "result" = some Json.null ∨
      ∃ entries, (backend (dashboardReq base
          (pyStrip (extract_candidate_from_url dash_arg)))).body.get "result" =
            some (Json.obj entries) ∧
        (Json.obj entries).get "uuid" = none) :
    resolve_dashboard_uuid backend base tok dash_arg =
      (.error ⟨400, "Dashboard lookup returned no \x27uuid\x27 for \x27" ++ dash_arg ++ "\x27."⟩,
       [(Step.resolve, dashboardReq base (pyStrip (extract_candidate_from_url dash_arg)))]) ∧
    occursB dash_arg.data
      ("Dashboard lookup returned no \x27uuid\x27 for \x27" ++ dash_arg ++ "\x27.").data = true := by
  constructor
  · have hres : (resultOrEmpty (backend (dashboardReq base
        (pyStrip (extract_candidate_from_url dash_arg)))).body).get "uuid" = none := by
      unfold resultOrEmpty
      rcases hbody with h | h | ⟨entries, h, hu⟩
      · rw [h]
        rfl
      · rw [h]
        rfl
      · rw [h]
        dsimp only
        by_cases he : (Json.obj entries).truthy = true
        · rw [if_pos he]
          exact hu
        · rw [if_neg he]
          rfl
    have hlk : resolveLookupResult (backend (dashboardReq base
        (pyStrip (extract_candidate_from_url dash_arg)))) dash_arg =
        .error ⟨400, "Dashboard lookup returned no \x27uuid\x27 for \x27" ++ dash_arg ++ "\x27."⟩ := by
      unfold resolveLookupResult
      have hns : ¬((backend (dashboardReq base
          (pyStrip (extract_candidate_from_url dash_arg)))).status_code ≠ 200) := by
        rw [hstatus]
        intro hh
        exact hh rfl
      rw [if_neg hns, hres]
    unfold resolve_dashboard_uuid resolveCandidate
    rw [if_neg hshape]
    dsimp only
    rw [hlk]
  · have hd : ("Dashboard lookup returned no \x27uuid\x27 for \x27" ++ dash_arg ++ "\x27.").data =
        "Dashboard lookup returned no \x27uuid\x27 for \x27".data ++
          (dash_arg.data ++ "\x27.".data) := by
      rw [String.data_append, String.data_append, List.append_assoc]
    rw [hd]
    exact occursB_append _ _ _

/-- Witness for C10: a 200 lookup whose `result` is `null` yields the 400
resolution error naming the reference `"7"`. -/
theorem C10_lookup_missing_uuid_witness :
    resolve_dashboard_uuid bkC10 "http://s" tok0 "7" =
      (.error ⟨400, "Dashboard lookup returned no \x27uuid\x27 for \x277\x27."⟩,
       [(Step.resolve, dashboardReq "http://s" "7")]) ∧
    occursB "7".data "Dashboard lookup returned no \x27uuid\x27 for \x277\x27.".data = true :=
  C10_lookup_missing_uuid bkC10 "http://s" tok0 "7" (by decide) (by decide)
    (Or.inr (Or.inl rfl))

/-- C8 (amended): the resolver depends on the reference only through the
whitespace-stripped extracted candidate (plus the reference's spelling
inside error messages), so two references whose extracted candidates agree
after stripping resolve identically: same upstream calls, same success
value, same failure status.  A UUID-shaped reference carrying surrounding
whitespace is not returned verbatim: the *stripped* string is returned.
(For URL-shaped references, surrounding whitespace can change the extracted
candidate itself — see the counterexample.) -/
theorem C8_strip_candidate :
    (∀ (backend : Req → HttpResp) (base : String) (tok : Json) (r1 r2 : String),
      pyStrip (extract_candidate_from_url r1) = pyStrip (extract_candidate_from_url r2) →
      (resolve_dashboard_uuid backend base tok r1).2 = (resolve_dashboard_uuid backend base tok r2).2 ∧
      (∀ j, (resolve_dashboard_uuid backend base tok r1).1 = .ok j ↔
            (resolve_dashboard_uuid backend base tok r2).1 = .ok j) ∧
      (∀ e1 e2, (resolve_dashboard_uuid backend base tok r1).1 = .error e1 →
        (resolve_dashboard_uuid backend base tok r2).1 = .error e2 →
        e1.status_code = e2.status_code)) ∧
    resolve_dashboard_uuid bk401 "http://s" tok0 " 123e4567-e89b-12d3-a456-426614174000" =
      (.ok (.str "123e4567-e89b-12d3-a456-426614174000"), []) ∧
    (" 123e4567-e89b-12d3-a456-426614174000" : String) ≠
      "123e4567-e89b-12d3-a456-426614174000" := by
  refine ⟨?_, rfl, by decide⟩
  intro backend base tok r1 r2 h
  unfold resolve_dashboard_uuid
  rw [h]
  unfold resolveCandidate
  split
  · exact ⟨rfl, fun j => Iff.rfl, fun e1 e2 h1 _ => Except.noConfusion h1⟩
  · exact ⟨rfl, (resolveLookupResult_same_shape _ r1 r2).1,
      (resolveLookupResult_same_shape _ r1 r2).2⟩

/-- Witness for C8 (amended): `" 42 "` and `"42"` have the same stripped
candidate and resolve to the same uuid with the same single upstream
call. -/
theorem C8_strip_candidate_witness :
    (resolve_dashboard_uuid bkC8w "http://s" tok0 " 42 ").2 =
      (resolve_dashboard_uuid bkC8w "http://s" tok0 "42").2 ∧
    ((resolve_dashboard_uuid bkC8w "http://s" tok0 " 42 ").1 = .ok (.str "u1") ↔
      (resolve_dashboard_uuid bkC8w "http://s" tok0 "42").1 = .ok (.str "u1")) :=
  ⟨(C8_strip_candidate.1 bkC8w "http://s" tok0 " 42 " "42" (by decide)).1,
   (C8_strip_candidate.1 bkC8w "http://s" tok0 " 42 " "42" (by decide)).2.1 (.str "u1")⟩

/-- Counterexample for C8 as stated: `"http://a/"` and `"http://a/ "`
differ only by one trailing space, yet they do not resolve identically —
the space becomes the sole non-empty path segment, strips to the empty
candidate, and a different lookup URL is queried, yielding a different
uuid. -/
theorem C8_counterexample :
    ("http://a/ " : String) = "http://a/" ++ " " ∧
    (resolve_dashboard_uuid bkC8 "http://s" tok0 "http://a/").1 = .ok (.str "A") ∧
    (resolve_dashboard_uuid bkC8 "http://s" tok0 "http://a/ ").1 = .ok (.str "B") ∧
    ("A" : String) ≠ "B" :=
  ⟨rfl, rfl, rfl, by decide⟩

/-- C7 (amended): the login step raises an authentication error exactly
when the upstream returns a non-200 status or returns 200 with a missing
*or falsy* `access_token` value; the error carries the upstream status and
body in the non-200 case, while the 200-with-no-usable-token case raises a
fixed message that carries neither.  A mocked 401 login makes the
token-generation endpoint fail with status 400 and a detail containing
`"Login failed (401)"`, after exactly the one login call. -/
theorem C7_login_failure_modes :
    (∀ (backend : Req → HttpResp) (base username password provider : String),
      isErr (login backend base username password provider).1 = true ↔
        ((backend (loginReq base username password provider)).status_code ≠ 200 ∨
         optTruthy ((backend (loginReq base username password provider)).body.get
           "access_token") = false)) ∧
    (∀ (backend : Req → HttpResp) (base username password provider : String),
      (backend (loginReq base username password provider)).status_code ≠ 200 →
      (login backend base username password provider).1 =
        .error ⟨400, "Login failed (" ++
          toString (backend (loginReq base username password provider)).status_code ++
          "): " ++ (backend (loginReq base username password provider)).text⟩) ∧
    (∀ (backend : Req → HttpResp) (base username password provider : String),
      (backend (loginReq base username password provider)).status_code = 200 →
      optTruthy ((backend (loginReq base username password provider)).body.get
        "access_token") = false →
      (login backend base username password provider).1 =
        .error ⟨400, "Login succeeded but no access_token returned"⟩) ∧
    (∀ (backend : Req → HttpResp) (env : Env) (body : RequestBody) (cfg : ValidConfig),
      get_config (Config.ofEnv env) = .ok cfg →
      (backend (loginReq (baseOf cfg) cfg.SUPERSET_USERNAME cfg.SUPERSET_PASSWORD
        cfg.SUPERSET_LOGIN_PROVIDER)).status_code = 401 →
      ∃ e, generate_guest_token_endpoint backend env body =
          (.error e, [(Step.login, loginReq (baseOf cfg) cfg.SUPERSET_USERNAME
            cfg.SUPERSET_PASSWORD cfg.SUPERSET_LOGIN_PROVIDER)]) ∧
        e.status_code = 400 ∧
        occursB "Login failed (401)".data e.detail.data = true) := by
  refine ⟨?_, ?_, ?_, ?_⟩
  · intro backend base username password provider
    show isErr (loginResult (backend (loginReq base username password provider))) = true ↔ _
    unfold loginResult
    by_cases hs : (backend (loginReq base username password provider)).status_code ≠ 200
    · rw [if_pos hs]
      simp [isErr, hs]
    · rw [if_neg hs]
      cases hg : (backend (loginReq base username password provider)).body.get "access_token" with
      | none => simp [isErr, optTruthy, hg, hs]
      | some token =>
        cases ht : token.truthy with
        | false => simp [isErr, optTruthy, hg, ht, hs]
        | true => simp [isErr, optTruthy, hg, ht, hs]
  · intro backend base username password provider h
    show loginResult (backend (loginReq base username password provider)) = _
    unfold loginResult
    rw [if_pos h]
    rfl
  · intro backend base username password provider h1 h2
    show loginResult (backend (loginReq base username password provider)) = _
    unfold loginResult
    rw [if_neg (by rw [h1]; exact fun hh => hh rfl)]
    cases hg : (backend (loginReq base username password provider)).body.get "access_token" with
    | none => rfl
    | some token =>
      have h2' : token.truthy = false := by
        rw [hg] at h2
        exact h2
      dsimp only
      simp [h2']
  · intro backend env body cfg hcfg h401
    have herr : (login backend (baseOf cfg) cfg.SUPERSET_USERNAME cfg.SUPERSET_PASSWORD
        cfg.SUPERSET_LOGIN_PROVIDER).1 =
        .error ⟨400, "Login failed (" ++ toString (401 : Nat) ++ "): " ++
          (backend (loginReq (baseOf cfg) cfg.SUPERSET_USERNAME cfg.SUPERSET_PASSWORD
            cfg.SUPERSET_LOGIN_PROVIDER)).text⟩ := by
      show loginResult (backend (loginReq (baseOf cfg) cfg.SUPERSET_USERNAME
        cfg.SUPERSET_PASSWORD cfg.SUPERSET_LOGIN_PROVIDER)) = _
      unfold loginResult
      rw [h401]
      rw [if_pos (by decide)]
      rfl
    refine ⟨⟨400, "Login failed (" ++ toString (401 : Nat) ++ "): " ++
        (backend (loginReq (baseOf cfg) cfg.SUPERSET_USERNAME cfg.SUPERSET_PASSWORD
          cfg.SUPERSET_LOGIN_PROVIDER)).text⟩, ?_, rfl, ?_⟩
    · unfold generate_guest_token_endpoint
      rw [hcfg]
      exact pipeline_login_err backend cfg (parseGuestTokenRequest body) _ herr
    · have hc : (("Login failed (" ++ toString (401 : Nat)) ++ "): ").data =
          "Login failed (401)".data ++ ": ".data := by decide
      show occursB "Login failed (401)".data
        ((("Login failed (" ++ toString (401 : Nat)) ++ "): ") ++
          (backend (loginReq (baseOf cfg) cfg.SUPERSET_USERNAME cfg.SUPERSET_PASSWORD
            cfg.SUPERSET_LOGIN_PROVIDER)).text).data = true
      rw [String.data_append, hc, List.append_assoc]
      exact occursB_self_append _ _

/-- Counterexample for C7 as stated: a 200 login response whose
`access_token` field is *present* (but empty) still raises the
authentication error, so "exactly when ... no access_token field" fails;
and this error is a fixed message that contains neither the upstream
response body (`"RAWBODY"`) nor the upstream status (`"200"`), so
"carrying the upstream status and response body" fails for this case. -/
theorem C7_counterexample :
    (login (fun _ => respC7) "b" "u" "p" "db").1 =
      .error ⟨400, "Login succeeded but no access_token returned"⟩ ∧
    respC7.status_code = 200 ∧
    (respC7.body.get "access_token").isSome = true ∧
    occursB respC7.text.data "Login succeeded but no access_token returned".data = false ∧
    occursB "200".data "Login succeeded but no access_token returned".data = false :=
  ⟨rfl, rfl, rfl, by decide, by decide⟩

/-- Witness for C7 (amended): the 401 scenario at a concrete environment
and backend. -/
theorem C7_login_failure_modes_witness :
    ∃ e, generate_guest_token_endpoint bk401 envOk body0 =
        (.error e, [(Step.login, loginReq (baseOf ⟨"http://s", "u", "p", "db", true, []⟩)
          "u" "p" "db")]) ∧
      e.status_code = 400 ∧
      occursB "Login failed (401)".data e.detail.data = true :=
  C7_login_failure_modes.2.2.2 bk401 envOk body0 ⟨"http://s", "u", "p", "db", true, []⟩
    rfl rfl

/-- C1: the claim says an omitted `rls` field makes the configured default
`Config.RLS_JSON` be passed to issuance.  The code disagrees: pydantic's
`default_factory=list` turns an *omitted* `rls` into `[]` (not `None`), so
the `request.rls is not None` fallback at main.py:304 never fires for an
omitted field — the empty list is passed to issuance while the configured
default (`[1]` here) is ignored.  The fallback fires only for an explicit
`"rls": null`, and an explicit list is indeed passed verbatim. -/
theorem C1_default_rls_ignored :
    get_config (Config.ofEnv envC1) =
      .ok ⟨"https://sup.example/", "admin", "pw", "db", true, [Json.num 1]⟩ ∧
    issueRls (generate_guest_token_endpoint bkC1 envC1 bodyC1).2 = some (Json.arr []) ∧
    isErr (generate_guest_token_endpoint bkC1 envC1 bodyC1).1 = false ∧
    issueRls (generate_guest_token_endpoint bkC1 envC1 bodyC1null).2 =
      some (Json.arr [Json.num 1]) ∧
    issueRls (generate_guest_token_endpoint bkC1 envC1 bodyC1list).2 =
      some (Json.arr [Json.str "r"]) ∧
    (Json.arr [] = Json.arr [Json.num 1] → False) := by
  refine ⟨rfl, rfl, rfl, rfl, rfl, ?_⟩
  intro h
  injection h with h
  exact List.noConfusion h
